/-
Verification of the card-image generation pipeline
(`scripts/card_image_gen/`): retry orchestration, completion polling,
image location, workflow-graph construction, prompt synthesis,
missing-card selection and batch orchestration.

Pure functions are embedded directly; effectful code (network calls,
sleeps, filesystem, stdout reporting) is embedded by passing the
environment explicitly (an injected attempt-outcome function, an
injected history-response stream, an injected file-existence predicate)
and recording the observable effects (sleep delays, report counts) in
the returned trace.  Floats (`RETRY_DELAY`, `poll_interval`, `timeout`,
`elapsed`) are modelled as rationals.
-/
import Mathlib

set_option autoImplicit false

namespace CardImageGen

/-! ## Retry orchestration (`card_generator._generate_with_retry`)

The Python loop is

```
last_error = None
for attempt in range(config.MAX_RETRIES):
    try:
        return await client.generate(prompt, seed)
    except Exception as exc:
        last_error = exc
        if attempt < config.MAX_RETRIES - 1:
            delay = config.RETRY_DELAY * (attempt + 1)
            print(f"  Retry ...")
            await asyncio.sleep(delay)
raise last_error
```

`gen` is the injected body (outcome of `client.generate` on the n-th
attempt).  The trace records the returned/raised value, every sleep
delay in order, and how many failures were reported via `print`. -/

/-- What `_generate_with_retry` does when control leaves it:
return a value, re-raise the last caught error, or (when the loop runs
zero times) `raise None`. -/
inductive RetryOutcome (E B : Type) where
  | ok (b : B)
  | raised (e : E)
  | raisedNone
  deriving DecidableEq

/-- Observable behaviour of one `_generate_with_retry` call. -/
structure RetryTrace (E B : Type) where
  outcome : RetryOutcome E B
  sleeps : List ℚ
  reports : ℕ
  deriving DecidableEq

/-- The `for attempt in range(MAX_RETRIES)` loop; `fuel` is the number
of remaining iterations (initially `maxRetries`), `attempt` the current
0-based index, `lastErr` the `last_error` variable. -/
def retryAux {E B : Type} (gen : ℕ → Except E B) (maxRetries : ℕ) (baseDelay : ℚ)
    (lastErr : Option E) (attempt : ℕ) : ℕ → RetryTrace E B
  | 0 =>
    { outcome := match lastErr with
        | none => .raisedNone
        | some e => .raised e
      sleeps := [], reports := 0 }
  | fuel + 1 =>
    match gen attempt with
    | .ok b => { outcome := .ok b, sleeps := [], reports := 0 }
    | .error e =>
      let rest := retryAux gen maxRetries baseDelay (some e) (attempt + 1) fuel
      if attempt < maxRetries - 1 then
        { outcome := rest.outcome
          sleeps := baseDelay * ((attempt + 1 : ℕ) : ℚ) :: rest.sleeps
          reports := rest.reports + 1 }
      else rest

/-- `_generate_with_retry`, with the generation body injected. -/
def generateWithRetry {E B : Type} (gen : ℕ → Except E B) (maxRetries : ℕ)
    (baseDelay : ℚ) : RetryTrace E B :=
  retryAux gen maxRetries baseDelay none 0 maxRetries

/-- `config.MAX_RETRIES` -/
def MAX_RETRIES : ℕ := 3

/-- `config.RETRY_DELAY` -/
def RETRY_DELAY : ℚ := 2

/-! ## Completion polling (`ComfyUIClient.wait_for_completion`)

```
elapsed = 0.0
while elapsed < timeout:
    ... GET /history/{prompt_id} ...
    if prompt_id in history:
        return history[prompt_id]
    await asyncio.sleep(poll_interval)
    elapsed += poll_interval
raise TimeoutError(...)
```

`responses n` is the injected n-th history response, restricted to the
`prompt_id` key: `some d` when the job id maps to descriptor `d`,
`none` when the id is absent. -/

/-- How the wait loop ends: descriptor returned, `TimeoutError`
raised, or the (free) fuel bound exhausted before the loop ended. -/
inductive PollResult (D : Type) where
  | completed (d : D)
  | timedOut
  | fuelOut
  deriving DecidableEq

/-- The polling loop.  Returns the loop outcome together with the total
number of history queries issued.  `elapsed` and `n` start at 0;
`fuel` only bounds the number of iterations we unfold (the Python loop
has no such bound; every theorem below assumes enough fuel). -/
def pollLoop {D : Type} (responses : ℕ → Option D) (pollInterval timeout : ℚ) :
    ℕ → ℚ → ℕ → PollResult D × ℕ
  | 0, _, n => (.fuelOut, n)
  | fuel + 1, elapsed, n =>
    if elapsed < timeout then
      match responses n with
      | some d => (.completed d, n + 1)
      | none => pollLoop responses pollInterval timeout fuel (elapsed + pollInterval) (n + 1)
    else (.timedOut, n)

/-- `wait_for_completion`, with the HTTP responses injected. -/
def waitForCompletion {D : Type} (responses : ℕ → Option D)
    (pollInterval timeout : ℚ) (fuel : ℕ) : PollResult D × ℕ :=
  pollLoop responses pollInterval timeout fuel 0 0

/-! ## Image location inside `ComfyUIClient.generate`

```
outputs = result.get("outputs", {})
for output in outputs.values():
    if "images" in output:
        img_info = output["images"][0]
        return await self.get_image(
            img_info["filename"], img_info.get("subfolder", "")
        )
raise RuntimeError("No image found in generation output")
```

Output entries are walked in mapping (insertion) order, so the
descriptor's `outputs` is embedded as a list of entries.  An entry's
`"images"` key may be absent (`none`) or map to a list of image
descriptors; an image descriptor's `"subfolder"` key may be absent. -/

/-- One element of an output entry's `"images"` list. -/
structure ImageInfo where
  filename : String
  subfolder : Option String
  deriving DecidableEq

/-- One value of the result descriptor's `outputs` mapping. -/
structure OutputEntry where
  images : Option (List ImageInfo)
  deriving DecidableEq

/-- How the image-location step of `generate` ends: a `get_image` call
with the chosen filename/subfolder, the defensive
`RuntimeError("No image found in generation output")`, or an
`IndexError` from `output["images"][0]` on an empty list. -/
inductive LocateResult where
  | fetch (filename : String) (subfolder : String)
  | noImage
  | indexError
  deriving DecidableEq

/-- The `for output in outputs.values()` walk of `generate`. -/
def locateImage : List OutputEntry → LocateResult
  | [] => .noImage
  | o :: rest =>
    match o.images with
    | none => locateImage rest
    | some [] => .indexError
    | some (img :: _) => .fetch img.filename (img.subfolder.getD "")

/-! ## Workflow construction (`build_flux_workflow`) and `config` -/

/-- `config.UNET_MODEL` -/
def UNET_MODEL : String := "flux1-schnell-fp8-e4m3fn.safetensors"

/-- `config.VAE_MODEL` -/
def VAE_MODEL : String := "flux-vae-bf16.safetensors"

/-- `config.CLIP_L_MODEL` -/
def CLIP_L_MODEL : String := "clip_l.safetensors"

/-- `config.T5XXL_MODEL` -/
def T5XXL_MODEL : String := "t5xxl_fp8_e4m3fn.safetensors"

/-- `config.IMAGE_WIDTH` -/
def IMAGE_WIDTH : ℕ := 960

/-- `config.IMAGE_HEIGHT` -/
def IMAGE_HEIGHT : ℕ := 720

/-- `config.STEPS` -/
def STEPS : ℕ := 4

/-- `config.CFG` -/
def CFG : ℚ := 1.0

/-- `config.SAMPLER` -/
def SAMPLER : String := "euler"

/-- `config.SCHEDULER` -/
def SCHEDULER : String := "simple"

/-- `config.GUIDANCE` -/
def GUIDANCE : ℚ := 3.5

/-- A JSON value appearing in a workflow node's `inputs` mapping:
a string, a number, or a `[node-id, output-index]` reference. -/
inductive WFValue where
  | str (v : String)
  | num (v : ℚ)
  | ref (node : String) (idx : ℕ)
  deriving DecidableEq

/-- One node of the workflow graph. -/
structure WFNode where
  class_type : String
  inputs : List (String × WFValue)
  deriving DecidableEq

/-- `build_flux_workflow(prompt, seed)`: the fixed 8-node graph. -/
def build_flux_workflow (prompt : String) (seed : ℤ) : List (String × WFNode) :=
  [("1", { class_type := "UNETLoader"
           inputs := [("unet_name", .str UNET_MODEL),
                      ("weight_dtype", .str "default")] }),
   ("2", { class_type := "DualCLIPLoader"
           inputs := [("clip_name1", .str CLIP_L_MODEL),
                      ("clip_name2", .str T5XXL_MODEL),
                      ("type", .str "flux")] }),
   ("3", { class_type := "VAELoader"
           inputs := [("vae_name", .str VAE_MODEL)] }),
   ("4", { class_type := "CLIPTextEncodeFlux"
           inputs := [("clip", .ref "2" 0),
                      ("clip_l", .str prompt),
                      ("t5xxl", .str prompt),
                      ("guidance", .num GUIDANCE)] }),
   ("5", { class_type := "EmptyLatentImage"
           inputs := [("width", .num (IMAGE_WIDTH : ℚ)),
                      ("height", .num (IMAGE_HEIGHT : ℚ)),
                      ("batch_size", .num 1)] }),
   ("6", { class_type := "KSampler"
           inputs := [("model", .ref "1" 0),
                      ("positive", .ref "4" 0),
                      ("negative", .ref "4" 0),
                      ("latent_image", .ref "5" 0),
                      ("seed", .num (seed : ℚ)),
                      ("steps", .num (STEPS : ℚ)),
                      ("cfg", .num CFG),
                      ("sampler_name", .str SAMPLER),
                      ("scheduler", .str SCHEDULER),
                      ("denoise", .num 1.0)] }),
   ("7", { class_type := "VAEDecode"
           inputs := [("samples", .ref "6" 0),
                      ("vae", .ref "3" 0)] }),
   ("8", { class_type := "SaveImage"
           inputs := [("images", .ref "7" 0),
                      ("filename_prefix", .str "tfm_card")] })]

/-- Look one input field up in a workflow graph (node key, then input
key, first match each). -/
def wfLookup (g : List (String × WFNode)) (node inputKey : String) : Option WFValue :=
  match g.lookup node with
  | some nd => nd.inputs.lookup inputKey
  | none => none

/-- Replace the value of the sampler node's `seed` input, touching
nothing else.  Used to state that two graphs differ only there. -/
def setSamplerSeed (g : List (String × WFNode)) (seed : ℤ) : List (String × WFNode) :=
  g.map fun kv =>
    if kv.1 = "6" then
      (kv.1, { class_type := kv.2.class_type
               inputs := kv.2.inputs.map fun iv =>
                 if iv.1 = "seed" then (iv.1, WFValue.num (seed : ℚ)) else iv })
    else kv

/-! ## Prompt synthesis (`prompt_builder.py`)

Strings are manipulated as `List Char` (Python `str` indexing, `len`
and slicing are per-character) with `String` wrappers at the API
boundary.  `hashlib.md5` is an external library; `build_prompt` is
parameterised over `md5Int : String → ℕ`, standing for
`int(hashlib.md5(card_id.encode()).hexdigest(), 16)` — a fixed pure
function of the id. -/

/-- Python `\s` (ASCII range, which covers the pattern letters used). -/
def isPySpace (c : Char) : Bool :=
  c = ' ' || c = '\t' || c = '\n' || c = '\x0d' || c = '\x0b' || c = '\x0c'

/-- Python `str.strip()`: drop whitespace from both ends. -/
def pyStrip (l : List Char) : List Char :=
  ((l.dropWhile isPySpace).reverse.dropWhile isPySpace).reverse

/-- One step of `re.sub(r"\*\*([^*]+)\*\*", r"\1", text)`: non-overlapping
leftmost matches of `**…**` (inner part one or more non-`*` characters)
are replaced by the inner part.  `fuel` starts at the list length and
dominates it at every recursive call (each call consumes at least one
character). -/
def stripBoldAux : ℕ → List Char → List Char
  | _, [] => []
  | 0, l => l
  | fuel + 1, '*' :: '*' :: rest =>
    let content := rest.takeWhile fun x => x ≠ '*'
    let rest2 := rest.dropWhile fun x => x ≠ '*'
    if content.length > 0 ∧ rest2.take 2 = ['*', '*'] then
      content ++ stripBoldAux fuel (rest2.drop 2)
    else
      '*' :: stripBoldAux fuel ('*' :: rest)
  | fuel + 1, c :: cs => c :: stripBoldAux fuel cs

/-- `re.sub(r"\*\*([^*]+)\*\*", r"\1", text)`. -/
def stripBold (l : List Char) : List Char :=
  stripBoldAux l.length l

/-- `re.split(r"[.!]\s*", text)`: each `.` or `!` together with the
following whitespace run is a separator.  Splitting keeps empty
pieces, exactly as `re.split` does.  `fuel` as in `stripBoldAux`. -/
def splitSentencesAux : ℕ → List Char → List (List Char)
  | _, [] => [[]]
  | 0, l => [l]
  | fuel + 1, c :: cs =>
    if c = '.' || c = '!' then
      [] :: splitSentencesAux fuel (cs.dropWhile isPySpace)
    else
      match splitSentencesAux fuel cs with
      | [] => [[c]]
      | s :: ss => (c :: s) :: ss

/-- `re.split(r"[.!]\s*", text)`. -/
def splitSentences (l : List Char) : List (List Char) :=
  splitSentencesAux l.length l

/-- Substring test (the `re.search` of a literal alternative, on an
already lower-cased haystack). -/
def containsL (needle : List Char) : List Char → Bool
  | [] => needle.isEmpty
  | c :: cs => needle.isPrefixOf (c :: cs) || containsL needle cs

/-- Match a literal keyword at the head of the list, returning what
follows it. -/
def stripLiteral : List Char → List Char → Option (List Char)
  | [], rest => some rest
  | _ :: _, [] => none
  | k :: ks, c :: cs => if c = k then stripLiteral ks cs else none

/-- `\s+\d` at the head of the list: at least one whitespace character,
then a decimal digit (backtracking over the greedy `\s+` is equivalent
to skipping the whole whitespace run, since a digit is not `\s`). -/
def wsDigitAfter : List Char → Bool
  | [] => false
  | c :: cs =>
    isPySpace c &&
      match cs.dropWhile isPySpace with
      | d :: _ => d.isDigit
      | [] => false

/-- Search for `<kw>\s+\d` anywhere in the (lower-cased) list: the
`pay\s+\d`, `spend\s+\d`, `gain\s+\d`, `lose\s+\d` alternatives. -/
def searchKwWsDigit (kw : List Char) : List Char → Bool
  | [] => false
  | c :: cs =>
    (match stripLiteral kw (c :: cs) with
     | some rest => wsDigitAfter rest
     | none => false) || searchKwWsDigit kw cs

/-- After the literal `require`: `s?\s+\d`.  Consuming the optional `s`
and not consuming it cannot both be live (an `s` is not whitespace), so
the regex backtracking collapses to this case split. -/
def afterRequire : List Char → Bool
  | 's' :: rest => wsDigitAfter rest
  | rest => wsDigitAfter rest

/-- Search for `requires?\s+\d` anywhere in the (lower-cased) list. -/
def searchRequire : List Char → Bool
  | [] => false
  | c :: cs =>
    (match stripLiteral ('r' :: 'e' :: 'q' :: 'u' :: 'i' :: 'r' :: 'e' :: []) (c :: cs) with
     | some rest => afterRequire rest
     | none => false) || searchRequire cs

/-- After the literal `place`: `\s+a\s+` (greedy `\s+` then `a` then at
least one whitespace; backtracking again collapses, since `a` is not
whitespace). -/
def afterPlace : List Char → Bool
  | [] => false
  | c :: cs =>
    isPySpace c &&
      match cs.dropWhile isPySpace with
      | 'a' :: r :: _ => isPySpace r
      | _ => false

/-- Search for `place\s+a\s+` anywhere in the (lower-cased) list. -/
def searchPlaceA : List Char → Bool
  | [] => false
  | c :: cs =>
    (match stripLiteral ('p' :: 'l' :: 'a' :: 'c' :: 'e' :: []) (c :: cs) with
     | some rest => afterPlace rest
     | none => false) || searchPlaceA cs

/-- `_MECHANIC_KEYWORDS.search(s)` as a boolean: the compiled pattern is
an alternation under `re.IGNORECASE`, so the search succeeds iff some
alternative matches somewhere.  The purely-literal alternatives reduce
to (case-insensitive) substring tests — for `resources?(?:\s+on)?` the
optional parts cannot make a match fail, so it reduces to the literal
`resource`; `requires?\s+\d`, `pay\s+\d`, `spend\s+\d`, `place\s+a\s+`,
`gain\s+\d` and `lose\s+\d` keep their whitespace/digit tails. -/
def mechanicSearch (s : List Char) : Bool :=
  let ls := s.map Char.toLower
  containsL "production".data ls || containsL "m€".data ls ||
  containsL "vp".data ls || containsL "step".data ls ||
  containsL "tile".data ls || containsL "draw".data ls ||
  containsL "discard".data ls || containsL "opponent".data ls ||
  containsL "player".data ls || containsL "terraform rating".data ls ||
  containsL "global parameter".data ls || containsL "standard project".data ls ||
  searchRequire ls ||
  containsL "tag requirement".data ls || containsL "tag cards".data ls ||
  containsL "into your hand".data ls || containsL "from the deck".data ls ||
  containsL "reveal cards".data ls || containsL "resource".data ls ||
  searchKwWsDigit "pay".data ls || searchKwWsDigit "spend".data ls ||
  searchPlaceA ls ||
  searchKwWsDigit "gain".data ls || searchKwWsDigit "lose".data ls ||
  containsL "reduce".data ls || containsL "raise".data ls ||
  containsL "increase".data ls || containsL "decrease".data ls ||
  containsL "action:".data ls || containsL "effect:".data ls

/-- `_extract_visual_concepts(description)` on character lists:

```
if not description: return ""
text = re.sub(r"\*\*([^*]+)\*\*", r"\1", description)
sentences = re.split(r"[.!]\s*", text)
visual = [s.strip() for s in sentences if s.strip() and not _MECHANIC_KEYWORDS.search(s)]
result = ". ".join(visual)
if len(result) < 5: return ""
return result[:100]
```
-/
def extractVisualConceptsL (description : List Char) : List Char :=
  if description = [] then []
  else
    let text := stripBold description
    let sentences := splitSentences text
    let visual :=
      (sentences.filter fun s => !(pyStrip s).isEmpty && !mechanicSearch s).map pyStrip
    let result := List.intercalate ". ".data visual
    if result.length < 5 then [] else result.take 100

/-- `_extract_visual_concepts` at the `String` boundary. -/
def extract_visual_concepts (description : String) : String :=
  (extractVisualConceptsL description.data).asString

/-- Modelled from the claim/spec wording for the visual-concepts
clause, to be compared with `extractVisualConceptsL`: "emphasis markup
stripped, text split into units on `.`/`!` boundaries, every unit
matching the mechanic-keyword pattern (case-insensitive) discarded,
survivors joined with `. `, the result truncated to its first 100
characters, and the clause omitted entirely (empty) when fewer than 5
characters survive". -/
def visualConceptsClaim (description : List Char) : List Char :=
  let text := stripBold description
  let units := splitSentences text
  let survivors := units.filter fun s => !mechanicSearch s
  let result := List.intercalate ". ".data survivors
  if result.length < 5 then [] else result.take 100

/-- The claim as amended: additionally, units that are empty or
whitespace-only are discarded too, and each surviving unit is
whitespace-stripped before joining. -/
def visualConceptsAmended (description : List Char) : List Char :=
  let text := stripBold description
  let units := splitSentences text
  let survivors :=
    (units.filter fun s => !(pyStrip s).isEmpty && !mechanicSearch s).map pyStrip
  let result := List.intercalate ". ".data survivors
  if result.length < 5 then [] else result.take 100

/-- `BASE_STYLE` -/
def BASE_STYLE : String :=
  "photorealistic sci-fi digital art, high detail, professional concept art, " ++
  "no text, no words, no lettering, no watermarks, " ++
  "astronomically accurate, only one sun in the sky, " ++
  "no duplicate planets or moons, " ++
  "planets and moons appear small and distant high in the sky"

/-- `_PERSPECTIVES` -/
def PERSPECTIVES : List String :=
  ["wide panoramic shot",
   "cinematic close-up",
   "dramatic low angle",
   "bird's eye view",
   "first-person perspective",
   "over-the-shoulder view",
   "extreme wide establishing shot",
   "intimate macro detail"]

/-- `_LIGHTING` -/
def LIGHTING : List String :=
  ["golden hour warm lighting",
   "cool blue twilight",
   "harsh dramatic shadows",
   "soft diffused glow",
   "neon-lit cyberpunk ambiance",
   "stark high-contrast chiaroscuro",
   "ethereal backlit silhouette",
   "warm amber firelight"]

/-- `_COLOR_PALETTES` -/
def COLOR_PALETTES : List String :=
  ["warm orange and rust tones",
   "cool blue and silver palette",
   "vibrant greens and teals",
   "deep purple and violet hues",
   "fiery red and gold spectrum",
   "muted earth tones",
   "icy white and pale blue",
   "rich amber and bronze"]

/-- `TAG_HINTS` -/
def TAG_HINTS : List (String × String) :=
  [("building", "futuristic industrial structures"),
   ("power", "energy infrastructure"),
   ("science", "scientific equipment"),
   ("microbe", "bioluminescent microorganisms"),
   ("animal", "alien fauna"),
   ("plant", "lush vegetation"),
   ("space", "deep space backdrop"),
   ("earth", "tiny Earth far away high in the sky"),
   ("jovian", "small distant Jupiter high in the sky"),
   ("venus", "small distant Venus high in the sky"),
   ("city", "domed city"),
   ("mars", "red Martian terrain"),
   ("moon", "lunar surface"),
   ("clone", "genetic engineering"),
   ("wild", "alien wilderness"),
   ("event", "celestial phenomenon")]

/-- `CARD_TYPE_MOOD` -/
def CARD_TYPE_MOOD : List (String × String) :=
  [("automated", "industrial scene"),
   ("active", "dynamic scene"),
   ("event", "dramatic moment"),
   ("corporation", "corporate power"),
   ("prelude", "early colonization")]

/-- `_NAME_OVERRIDES` -/
def NAME_OVERRIDES : List (String × String) :=
  [("066", "territorial marker planted on vast alien landscape, flag on rocky hilltop"),
   ("068", "corporate funding ceremony on Mars, executives shaking hands"),
   ("098", "luxurious tropical paradise colony under a glass dome, palm trees and pools"),
   ("123", "massive industrial manufacturing complex, smokestacks and conveyor belts"),
   ("145", "geothermal tectonic energy harvesting plant, glowing fissures in the ground"),
   ("B02", "eco-friendly green corporation campus surrounded by forests"),
   ("B05", "futuristic invention laboratory, holographic blueprints floating in air"),
   ("B09", "lightning-powered energy corporation, massive tesla coils crackling with electricity"),
   ("P05", "biodome ecosystem with thriving plants and wildlife under a protective shell"),
   ("T02", "exiled political figure walking away from a grand government building"),
   ("T09", "public relations command center, wall of holographic screens showing broadcasts"),
   ("T10", "festive crowd gathering at a Martian colony, fireworks in the dusty sky"),
   ("XC5", "sleek corporate skyscraper overlooking a volcanic Martian mountain at twilight")]

/-- `_variety_for_card(card_id)`: index the three lists by slices of the
md5 digest of the id, join with `, `. -/
def variety_for_card (md5Int : String → ℕ) (cardId : String) : String :=
  let h := md5Int cardId
  let perspective := PERSPECTIVES.getD (h % PERSPECTIVES.length) ""
  let lighting := LIGHTING.getD ((h / 2 ^ 8) % LIGHTING.length) ""
  let palette := COLOR_PALETTES.getD ((h / 2 ^ 16) % COLOR_PALETTES.length) ""
  perspective ++ ", " ++ lighting ++ ", " ++ palette

/-- A catalog entry as `build_prompt` reads it: `card["name"]` and
`card["id"]` are required keys; `type`, `description` and `tags` are
read with `card.get(…, default)`, so they may be absent. -/
structure Card where
  id : String
  name : String
  type : Option String
  description : Option String
  tags : Option (List String)
  deriving DecidableEq

/-- The subject clause of `build_prompt` (the if/elif/else at its
head): override text when the id is registered, the depersonalized
corporation clause for `type == "corporation"`, else the literal-name
clause. -/
def subjectClause (card : Card) : String :=
  match NAME_OVERRIDES.lookup card.id with
  | some ov => ov
  | none =>
    if card.type.getD "automated" = "corporation" then
      "scene inspired by the concept of " ++ card.name ++ ", unnamed corporation headquarters"
    else
      card.name ++ ", detailed scene of " ++ card.name

/-- The `parts` list built by `build_prompt(card)` in order: subject,
optional visual concepts, optional tag hints, optional mood, variety,
base style. -/
def buildPromptParts (md5Int : String → ℕ) (card : Card) : List String :=
  let parts := [subjectClause card]
  let concepts := extract_visual_concepts (card.description.getD "")
  let parts := if concepts ≠ "" then parts ++ [concepts] else parts
  let hints := (card.tags.getD []).filterMap fun t => TAG_HINTS.lookup t
  let parts := if hints ≠ [] then parts ++ [String.intercalate ", " hints] else parts
  let parts :=
    match CARD_TYPE_MOOD.lookup (card.type.getD "automated") with
    | some mood => parts ++ [mood]
    | none => parts
  parts ++ [variety_for_card md5Int card.id, BASE_STYLE]

/-- `build_prompt(card)`: `", ".join(parts)`. -/
def build_prompt (md5Int : String → ℕ) (card : Card) : String :=
  String.intercalate ", " (buildPromptParts md5Int card)

/-! ## Missing-card selection and batch orchestration
(`CardImageGenerator`)

The filesystem is injected as `fs : String → Bool` (does a path
exist); `output_dir / f"{card['id']}.webp"` is the concatenated path.
For the batch loop, the per-card outcome of `generate_card` is
injected as a list of `Except` values. -/

/-- `CardImageGenerator.get_missing_cards`. -/
def get_missing_cards (fs : String → Bool) (outputDir : String)
    (cards : List Card) : List Card :=
  cards.filter fun card => !fs (outputDir ++ "/" ++ card.id ++ ".webp")

/-- Observable behaviour of one `generate_batch` call: the returned
list of output paths, how many cards were attempted, and how many
per-card exceptions were caught (and logged) at the loop boundary. -/
structure BatchTrace (P : Type) where
  results : List P
  attempted : ℕ
  caught : ℕ
  deriving DecidableEq

/-- The `for i, card in enumerate(cards, 1)` loop of `generate_batch`:
each card's `generate_card` outcome is consumed in order; successes are
appended to `results`, exceptions are caught and logged, and the loop
continues. -/
def generateBatch {E P : Type} : List (Except E P) → BatchTrace P
  | [] => { results := [], attempted := 0, caught := 0 }
  | o :: rest =>
    let r := generateBatch rest
    match o with
    | .ok p => { results := p :: r.results, attempted := r.attempted + 1, caught := r.caught }
    | .error _ => { results := r.results, attempted := r.attempted + 1, caught := r.caught + 1 }

/-- The final `Generated {len(results)}/{total}` report of
`generate_batch`. -/
def batchReport {E P : Type} (outcomes : List (Except E P)) : ℕ × ℕ :=
  ((generateBatch outcomes).results.length, outcomes.length)

/-- A concrete automated-type entry, used in witnesses. -/
def soilFactory : Card :=
  { id := "042", name := "Soil Factory", type := some "automated",
    description := none, tags := some ["building"] }

/-- A concrete corporation-type entry whose id `B02` is in
`NAME_OVERRIDES`, used in witnesses. -/
def ecolineCard : Card :=
  { id := "B02", name := "Ecoline", type := some "corporation",
    description := none, tags := none }

/-- Bare test entries with ids `A`, `B`, `C`, used in witnesses. -/
def cardA : Card :=
  { id := "A", name := "Card A", type := none, description := none, tags := none }

/-- See `cardA`. -/
def cardB : Card :=
  { id := "B", name := "Card B", type := none, description := none, tags := none }

/-- See `cardA`. -/
def cardC : Card :=
  { id := "C", name := "Card C", type := none, description := none, tags := none }

/-! ## Theorems -/

/-- C4: Two-run determinism: for every fixed catalog entry, two calls
of `build_prompt(entry)` yield byte-identical strings; for every id,
the variety selection is a function of the id alone, stable across
runs and processes (modelled by a fixed pure digest function); for
every (prompt, seed), two calls of the workflow builder yield graphs
equal in every field. -/
theorem C4_two_run_determinism :
    (∀ (md5Int : String → ℕ) (e1 e2 : Card), e1 = e2 →
      build_prompt md5Int e1 = build_prompt md5Int e2) ∧
    (∀ (md5Int : String → ℕ) (id1 id2 : String), id1 = id2 →
      variety_for_card md5Int id1 = variety_for_card md5Int id2) ∧
    (∀ (prompt : String) (seed : ℤ),
      build_flux_workflow prompt seed = build_flux_workflow prompt seed) :=
  ⟨fun _ _ _ h => by rw [h], fun _ _ _ h => by rw [h], fun _ _ => rfl⟩

/-- Witness for C4 at a concrete entry, id and (prompt, seed). -/
theorem C4_two_run_determinism_witness :
    build_prompt (fun _ => 5) soilFactory = build_prompt (fun _ => 5) soilFactory ∧
    variety_for_card (fun _ => 5) "042" = variety_for_card (fun _ => 5) "042" ∧
    build_flux_workflow "a red dome" 7 = build_flux_workflow "a red dome" 7 :=
  ⟨C4_two_run_determinism.1 _ _ _ rfl, C4_two_run_determinism.2.1 _ _ _ rfl,
   C4_two_run_determinism.2.2 _ _⟩

/-- C6: the workflow graphs built from the same prompt and two seeds
differ only in the sampler node's `seed` input, the seed is forwarded
unchanged, and every other field is identical across the two graphs. -/
theorem C6_seed_threading (prompt : String) (s1 s2 : ℤ) :
    wfLookup (build_flux_workflow prompt s1) "6" "seed" = some (.num (s1 : ℚ)) ∧
    build_flux_workflow prompt s1 = setSamplerSeed (build_flux_workflow prompt s2) s1 := by
  exact ⟨rfl, rfl⟩

/-- C7: an entry whose id is registered in the override table gets the
registered override text as its subject clause (the head of the parts
list `build_prompt` joins), whatever the entry's type is. -/
theorem C7_override_precedence (md5Int : String → ℕ) (card : Card) (ov : String) :
    NAME_OVERRIDES.lookup card.id = some ov →
    subjectClause card = ov ∧
    (buildPromptParts md5Int card).head? = some ov := by
  intro h
  have hs : subjectClause card = ov := by simp [subjectClause, h]
  refine ⟨hs, ?_⟩
  simp only [buildPromptParts]
  split <;> split <;> split <;> simp [hs]

/-- Witness for C7 at a corporation-typed entry with a registered
override. -/
theorem C7_override_precedence_witness :
    NAME_OVERRIDES.lookup ecolineCard.id =
      some "eco-friendly green corporation campus surrounded by forests" ∧
    (subjectClause ecolineCard =
      "eco-friendly green corporation campus surrounded by forests" ∧
     (buildPromptParts (fun _ => 0) ecolineCard).head? =
      some "eco-friendly green corporation campus surrounded by forests") :=
  ⟨by decide, C7_override_precedence (fun _ => 0) ecolineCard _ (by decide)⟩

/-- C8: the missing-selection operation returns exactly the entries
whose `<output_dir>/<id>.webp` file does not exist, in catalog order;
in the {A,B,C} example with only B's file present it returns [A, C]. -/
theorem C8_missing_selection (fs : String → Bool) (outputDir : String) (cards : List Card) :
    (get_missing_cards fs outputDir cards).Sublist cards ∧
    (∀ c, c ∈ get_missing_cards fs outputDir cards ↔
      c ∈ cards ∧ fs (outputDir ++ "/" ++ c.id ++ ".webp") = false) ∧
    get_missing_cards (fun p => p == "out/B.webp") "out" [cardA, cardB, cardC] =
      [cardA, cardC] := by
  refine ⟨List.filter_sublist _, fun c => ?_, by decide⟩
  simp [get_missing_cards, List.mem_filter]

/-- C9: the batch loop attempts every entry, catches each per-entry
failure at the loop boundary without aborting, returns exactly the
successful entries' outputs in order, and reports the success count
over the total. -/
theorem C9_batch_isolation {E P : Type} (outcomes : List (Except E P)) :
    (generateBatch outcomes).results = outcomes.filterMap Except.toOption ∧
    (generateBatch outcomes).attempted = outcomes.length ∧
    (generateBatch outcomes).caught + (generateBatch outcomes).results.length =
      outcomes.length ∧
    batchReport outcomes = ((outcomes.filterMap Except.toOption).length, outcomes.length) := by
  have h1 : ∀ os : List (Except E P),
      (generateBatch os).results = os.filterMap Except.toOption := by
    intro os
    induction os with
    | nil => simp [generateBatch]
    | cons o rest ih => cases o <;> simp [generateBatch, Except.toOption, ih]
  have h2 : ∀ os : List (Except E P), (generateBatch os).attempted = os.length := by
    intro os
    induction os with
    | nil => simp [generateBatch]
    | cons o rest ih => cases o <;> simp [generateBatch, ih]
  have h3 : ∀ os : List (Except E P),
      (generateBatch os).caught + (generateBatch os).results.length = os.length := by
    intro os
    induction os with
    | nil => simp [generateBatch]
    | cons o rest ih => cases o <;> simp [generateBatch] <;> omega
  exact ⟨h1 outcomes, h2 outcomes, h3 outcomes, by simp [batchReport, h1 outcomes]⟩

/-- Helper: when every output entry lacks an `images` key, the walk
reaches the defensive error. -/
theorem locateImage_noImage_of_all_none (outputs : List OutputEntry)
    (h : ∀ e ∈ outputs, e.images = none) : locateImage outputs = .noImage := by
  induction outputs with
  | nil => rfl
  | cons o rest ih =>
    have ho := h o (by simp)
    simp [locateImage, ho]
    exact ih fun e he => h e (by simp [he])

/-- Helper: conversely, the defensive error is only reached when every
output entry lacks an `images` key. -/
theorem all_none_of_locateImage_noImage (outputs : List OutputEntry)
    (h : locateImage outputs = .noImage) : ∀ e ∈ outputs, e.images = none := by
  induction outputs with
  | nil => simp
  | cons o rest ih =>
    intro e he
    match himg : o.images with
    | none =>
      rcases List.mem_cons.mp he with rfl | hm
      · exact himg
      · exact ih (by simpa [locateImage, himg] using h) e hm
    | some [] => simp [locateImage, himg] at h
    | some (img :: rest2) => simp [locateImage, himg] at h

/-- Helper: the walk's result at the first entry that has an `images`
key is determined by that entry's image list: index-0 fetch when the
list is non-empty, `IndexError` when it is empty. -/
theorem locateImage_first_images (outputs : List OutputEntry) :
    ∀ (j : ℕ) (o : OutputEntry) (l : List ImageInfo),
      outputs.get? j = some o → o.images = some l →
      (∀ i, i < j → ∀ e, outputs.get? i = some e → e.images = none) →
      locateImage outputs =
        match l with
        | [] => .indexError
        | img :: _ => .fetch img.filename (img.subfolder.getD "") := by
  induction outputs with
  | nil => intro j o l hj; simp at hj
  | cons o0 rest ih =>
    intro j o l hj himg hbefore
    cases j with
    | zero =>
      have : o0 = o := by simpa using hj
      subst this
      cases l <;> simp [locateImage, himg]
    | succ j =>
      have h0 : o0.images = none := hbefore 0 (by omega) o0 (by simp)
      have hrest := ih j o l (by simpa using hj) himg
        (fun i hi e he => hbefore (i + 1) (by omega) e (by simpa using he))
      cases l <;> simp_all [locateImage, h0]

/-- C3: `generate` fetches the first image of the first output entry
(in mapping order) that carries an image reference, using that image's
filename and subfolder; when no output entry carries an image
reference it fails with the defensive no-image error instead of
returning bytes. -/
theorem C3_image_location (outputs : List OutputEntry) (j : ℕ) (o : OutputEntry)
    (img : ImageInfo) (rest : List ImageInfo) :
    ((∀ e ∈ outputs, e.images = none) → locateImage outputs = .noImage) ∧
    (outputs.get? j = some o → o.images = some (img :: rest) →
      (∀ i, i < j → ∀ e, outputs.get? i = some e → e.images = none) →
      locateImage outputs = .fetch img.filename (img.subfolder.getD "")) := by
  refine ⟨locateImage_noImage_of_all_none outputs, fun hj himg hbefore => ?_⟩
  exact locateImage_first_images outputs j o (img :: rest) hj himg hbefore

/-- Witness for C3: a descriptor whose first entry has no image
reference and whose second carries one. -/
theorem C3_image_location_witness :
    ((∀ e ∈ [(⟨none⟩ : OutputEntry)], e.images = none) →
      locateImage [⟨none⟩] = .noImage) ∧
    ([(⟨none⟩ : OutputEntry), ⟨some [⟨"tfm_card_00001_.png", some "sub"⟩]⟩].get? 1 =
      some ⟨some [⟨"tfm_card_00001_.png", some "sub"⟩]⟩ ∧
     locateImage [⟨none⟩, ⟨some [⟨"tfm_card_00001_.png", some "sub"⟩]⟩] =
      .fetch "tfm_card_00001_.png" "sub") :=
  ⟨(C3_image_location [⟨none⟩] 0 ⟨none⟩ ⟨"", none⟩ []).1,
   by decide,
   (C3_image_location [⟨none⟩, ⟨some [⟨"tfm_card_00001_.png", some "sub"⟩]⟩] 1
      ⟨some [⟨"tfm_card_00001_.png", some "sub"⟩]⟩ ⟨"tfm_card_00001_.png", some "sub"⟩ []).2
     (by decide) (by decide)
     (fun i hi e he => by
       interval_cases i
       · exact congrArg OutputEntry.images (by simpa using he.symm))⟩

/-- C10: the defensive no-image error is raised exactly when no output
entry has an `images` key; when the first entry that has one maps it
to an empty list, the walk performs the out-of-bounds index-0 access
(`IndexError`) instead of reaching the no-image branch. -/
theorem C10_empty_images_index_error (outputs : List OutputEntry) (j : ℕ)
    (o : OutputEntry) :
    (locateImage outputs = .noImage ↔ ∀ e ∈ outputs, e.images = none) ∧
    (outputs.get? j = some o → o.images = some [] →
      (∀ i, i < j → ∀ e, outputs.get? i = some e → e.images = none) →
      locateImage outputs = .indexError) := by
  refine ⟨⟨all_none_of_locateImage_noImage outputs,
    locateImage_noImage_of_all_none outputs⟩, fun hj himg hbefore => ?_⟩
  exact locateImage_first_images outputs j o [] hj himg hbefore

/-- Witness for C10: a descriptor whose first entry maps `images` to
an empty list. -/
theorem C10_empty_images_index_error_witness :
    (locateImage [(⟨some []⟩ : OutputEntry)] = .noImage ↔
      ∀ e ∈ [(⟨some []⟩ : OutputEntry)], e.images = none) ∧
    ([(⟨some []⟩ : OutputEntry)].get? 0 = some ⟨some []⟩ ∧
     locateImage [(⟨some []⟩ : OutputEntry)] = .indexError) :=
  ⟨(C10_empty_images_index_error [⟨some []⟩] 0 ⟨some []⟩).1,
   by decide,
   (C10_empty_images_index_error [⟨some []⟩] 0 ⟨some []⟩).2 (by decide) (by decide)
     (fun i hi e he => absurd hi (by omega))⟩

/-- C5 counterexample: the claim describes the visual-concepts clause
as "split into units, units matching the pattern discarded, survivors
joined with `. `" — but the code additionally discards empty /
whitespace-only units and strips each survivor.  On the description
`"Blue.. Red"` the split yields the units `Blue`, `` (empty), `Red`,
none of which match the mechanic pattern: the claim's algorithm joins
all three into `"Blue. . Red"`, while the code produces
`"Blue. Red"`. -/
theorem C5_visual_concepts_counterexample :
    extract_visual_concepts "Blue.. Red" = "Blue. Red" ∧
    (visualConceptsClaim "Blue.. Red".data).asString = "Blue. . Red" ∧
    extract_visual_concepts "Blue.. Red" ≠ (visualConceptsClaim "Blue.. Red".data).asString := by
  refine ⟨by decide, by decide, by decide⟩

set_option maxRecDepth 10000 in
/-- C5 (amended): the visual-concepts clause equals: emphasis markup
stripped, text split into units on `.`/`!` boundaries, every unit that
matches the mechanic-keyword pattern (case-insensitively) or is
whitespace-only discarded, the survivors whitespace-stripped and
joined with `. `, the result truncated to its first 100 characters,
and the clause omitted entirely when fewer than 5 characters survive;
in particular the `"Gain 3 M€"` description keeps only its second
sentence, and a longer qualifying result is truncated to exactly
100 characters. -/
theorem C5_visual_concepts (d : String) :
    extract_visual_concepts d = (visualConceptsAmended d.data).asString ∧
    extract_visual_concepts
        "Gain 3 M€. A lush alien jungle stretches to the horizon." =
      "A lush alien jungle stretches to the horizon" ∧
    (extract_visual_concepts
        ("Endless crimson canyons wind toward a distant shimmering horizon " ++
         "beneath towering cliffs of ancient stone and mist.")).length = 100 := by
  refine ⟨?_, by decide, by decide⟩
  by_cases h : d.data = []
  · simp [extract_visual_concepts, extractVisualConceptsL, visualConceptsAmended, h,
      stripBold, stripBoldAux, splitSentences, splitSentencesAux, pyStrip,
      List.intercalate]
  · simp [extract_visual_concepts, extractVisualConceptsL, visualConceptsAmended, h]

/-- Helper: when the body fails on attempts `a, …, a+k-1` and succeeds
on attempt `a+k`, still inside the attempt budget, the loop from
attempt `a` returns the success, sleeps the `k` linear-backoff delays,
and reports `k` failures. -/
theorem retryAux_success {E B : Type} (gen : ℕ → Except E B) (maxRetries : ℕ)
    (baseDelay : ℚ) (es : ℕ → E) (b : B) :
    ∀ (k a fuel : ℕ) (lastErr : Option E),
      (∀ i, i < k → gen (a + i) = .error (es (a + i))) →
      gen (a + k) = .ok b →
      a + k < maxRetries → k < fuel →
      retryAux gen maxRetries baseDelay lastErr a fuel =
        { outcome := .ok b
          sleeps := (List.range k).map fun i => baseDelay * ((a + i + 1 : ℕ) : ℚ)
          reports := k } := by
  intro k
  induction k with
  | zero =>
    intro a fuel lastErr hfail hok hlt hfuel
    obtain ⟨f, rfl⟩ : ∃ f, fuel = f + 1 := ⟨fuel - 1, by omega⟩
    have hga : gen a = .ok b := by simpa using hok
    simp [retryAux, hga]
  | succ k ih =>
    intro a fuel lastErr hfail hok hlt hfuel
    obtain ⟨f, rfl⟩ : ∃ f, fuel = f + 1 := ⟨fuel - 1, by omega⟩
    have hga : gen a = .error (es a) := by simpa using hfail 0 (by omega)
    have hrest := ih (a + 1) f (some (es a))
      (fun i hi => by
        have := hfail (i + 1) (by omega)
        simpa [Nat.add_assoc, Nat.add_comm 1 i] using this)
      (by
        have := hok
        simpa [Nat.add_assoc, Nat.add_comm 1 k] using this)
      (by omega) (by omega)
    rw [retryAux, hga]
    simp only [hrest, if_pos (show a < maxRetries - 1 by omega)]
    have hsl : baseDelay * ((a + 1 : ℕ) : ℚ) ::
        (List.range k).map (fun i => baseDelay * ((a + 1 + i + 1 : ℕ) : ℚ)) =
        (List.range (k + 1)).map fun i => baseDelay * ((a + i + 1 : ℕ) : ℚ) := by
      rw [List.range_succ_eq_map, List.map_cons, List.map_map]
      refine congrArg₂ _ rfl (List.map_congr_left fun i _ => ?_)
      have h2 : a + 1 + i + 1 = a + (i + 1) + 1 := by omega
      simp [Function.comp, h2]
    rw [hsl]

/-- Helper: when the body fails on every one of the `fuel` remaining
attempts, the loop re-raises the error of the last attempt. -/
theorem retryAux_exhaust {E B : Type} (gen : ℕ → Except E B) (maxRetries : ℕ)
    (baseDelay : ℚ) (es : ℕ → E) :
    ∀ (fuel a : ℕ) (lastErr : Option E), 0 < fuel →
      (∀ i, i < fuel → gen (a + i) = .error (es (a + i))) →
      (retryAux gen maxRetries baseDelay lastErr a fuel).outcome =
        .raised (es (a + fuel - 1)) := by
  intro fuel
  induction fuel with
  | zero => omega
  | succ f ih =>
    intro a lastErr _ hfail
    have hga : gen a = .error (es a) := by simpa using hfail 0 (by omega)
    rcases Nat.eq_zero_or_pos f with hf | hf
    · subst hf
      simp only [retryAux, hga]
      split <;> simp [retryAux]
    · have hrest := ih (a + 1) (some (es a)) hf
        (fun i hi => by
          have := hfail (i + 1) (by omega)
          simpa [Nat.add_assoc, Nat.add_comm 1 i] using this)
      have harith : a + 1 + f - 1 = a + (f + 1) - 1 := by omega
      simp only [retryAux, hga]
      split <;> simpa [harith] using hrest

/-- C1: for every generation body: when the first `k` attempts fail
and attempt `k+1` succeeds within `max_attempts`, `_generate_with_retry`
returns the success, sleeps `base_delay * attempt_number` before each
of the `k` retries, and reports exactly `k` recoverable failures; when
all `max_attempts` attempts fail, it re-raises the last attempt's
error unchanged. -/
theorem C1_generate_with_retry {E B : Type} (gen : ℕ → Except E B) (es : ℕ → E)
    (b : B) (maxAttempts k : ℕ) (baseDelay : ℚ) :
    ((∀ i, i < k → gen i = .error (es i)) → gen k = .ok b → k + 1 ≤ maxAttempts →
      generateWithRetry gen maxAttempts baseDelay =
        { outcome := .ok b
          sleeps := (List.range k).map fun i => baseDelay * ((i + 1 : ℕ) : ℚ)
          reports := k }) ∧
    ((∀ i, i < maxAttempts → gen i = .error (es i)) → 0 < maxAttempts →
      (generateWithRetry gen maxAttempts baseDelay).outcome =
        .raised (es (maxAttempts - 1))) := by
  constructor
  · intro hfail hok hle
    have := retryAux_success gen maxAttempts baseDelay es b k 0 maxAttempts none
      (fun i hi => by simpa using hfail i hi) (by simpa using hok) (by omega) (by omega)
    simpa [generateWithRetry] using this
  · intro hfail hpos
    have := retryAux_exhaust gen maxAttempts baseDelay es maxAttempts 0 none hpos
      (fun i hi => by simpa using hfail i hi)
    simpa [generateWithRetry] using this

/-- Witness for C1: a body that fails twice then succeeds; with
`max_attempts = 3` the success is returned after two reported
failures and sleeps of `2·1` and `2·2`; with `max_attempts = 2` the
second failure's error is re-raised. -/
theorem C1_generate_with_retry_witness :
    (∀ i, i < 2 → (fun n => if n < 2 then Except.error n else Except.ok 42) i =
      Except.error i) ∧
    (fun n => if n < 2 then Except.error n else Except.ok 42) 2 = Except.ok (42 : ℕ) ∧
    generateWithRetry (fun n => if n < 2 then Except.error n else Except.ok 42) 3 2 =
      { outcome := .ok 42
        sleeps := (List.range 2).map fun i => (2 : ℚ) * ((i + 1 : ℕ) : ℚ)
        reports := 2 } ∧
    (generateWithRetry (fun n => if n < 2 then Except.error n else Except.ok 42) 2 2).outcome =
      .raised 1 :=
  ⟨fun i hi => by interval_cases i <;> rfl,
   rfl,
   (C1_generate_with_retry (fun n => if n < 2 then Except.error n else Except.ok 42)
      (fun i => i) 42 3 2 2).1
     (fun i hi => by interval_cases i <;> rfl) rfl (by omega),
   (C1_generate_with_retry (fun n => if n < 2 then Except.error n else Except.ok 42)
      (fun i => i) 42 2 2 2).2
     (fun i hi => by interval_cases i <;> rfl) (by omega)⟩

/-- Helper: when the job id never appears, the loop from accumulator
`elapsed` raises `TimeoutError` after exactly `⌈(t − elapsed)/p⌉`
further queries (`p > 0`, enough fuel). -/
theorem pollLoop_timeout {D : Type} (responses : ℕ → Option D) (p t : ℚ)
    (hp : 0 < p) (hnone : ∀ n, responses n = none) :
    ∀ (fuel : ℕ) (elapsed : ℚ) (n : ℕ),
      (⌈(t - elapsed) / p⌉).toNat < fuel →
      pollLoop responses p t fuel elapsed n =
        (.timedOut, n + (⌈(t - elapsed) / p⌉).toNat) := by
  intro fuel
  induction fuel with
  | zero => intro e n h; omega
  | succ f ih =>
    intro e n h
    by_cases he : e < t
    · have hkey : ⌈(t - e) / p⌉ = ⌈(t - (e + p)) / p⌉ + 1 := by
        have hdiv : (t - (e + p)) / p = (t - e) / p - 1 := by
          field_simp
          ring
        rw [hdiv, Int.ceil_sub_one]
        ring
      have hpos : 0 < ⌈(t - e) / p⌉ :=
        Int.ceil_pos.mpr (div_pos (sub_pos.mpr he) hp)
      have h2 : (⌈(t - (e + p)) / p⌉).toNat < f := by omega
      have harith : n + 1 + (⌈(t - (e + p)) / p⌉).toNat = n + (⌈(t - e) / p⌉).toNat := by
        omega
      rw [pollLoop, if_pos he, hnone n, ih (e + p) (n + 1) h2]
      simp [harith]
    · have h0 : (⌈(t - e) / p⌉).toNat = 0 := by
        have hle : (t - e) / p ≤ ((0 : ℤ) : ℚ) := by
          push_cast
          exact div_nonpos_of_nonpos_of_nonneg (by linarith) (le_of_lt hp)
        have := Int.ceil_le.mpr hle
        omega
      rw [pollLoop, if_neg he, h0]
      simp

/-- Helper: when the id first appears in the `m`-th further response
and the `m`-th further query still happens inside the time budget, the
loop returns that descriptor after `m + 1` further queries. -/
theorem pollLoop_success {D : Type} (responses : ℕ → Option D) (p t : ℚ) (d : D)
    (hp : 0 < p) :
    ∀ (m fuel : ℕ) (elapsed : ℚ) (n : ℕ),
      (∀ i, i < m → responses (n + i) = none) →
      responses (n + m) = some d →
      elapsed + m * p < t →
      m < fuel →
      pollLoop responses p t fuel elapsed n = (.completed d, n + m + 1) := by
  intro m
  induction m with
  | zero =>
    intro fuel e n hnone hd hlt hfuel
    obtain ⟨f, rfl⟩ : ∃ f, fuel = f + 1 := ⟨fuel - 1, by omega⟩
    have he : e < t := by
      have : (0 : ℚ) * p = 0 := by ring
      simpa [this] using hlt
    rw [pollLoop, if_pos he]
    have : responses n = some d := by simpa using hd
    rw [this]
  | succ m ih =>
    intro fuel e n hnone hd hlt hfuel
    obtain ⟨f, rfl⟩ : ∃ f, fuel = f + 1 := ⟨fuel - 1, by omega⟩
    have hmp : (0 : ℚ) < (m + 1 : ℕ) * p := by
      have : (0 : ℚ) < ((m + 1 : ℕ) : ℚ) := by positivity
      exact mul_pos this hp
    have he : e < t := by nlinarith
    have h0 : responses n = none := by simpa using hnone 0 (by omega)
    have hrec := ih f (e + p) (n + 1)
      (fun i hi => by
        have := hnone (i + 1) (by omega)
        simpa [Nat.add_assoc, Nat.add_comm 1 i] using this)
      (by
        have := hd
        simpa [Nat.add_assoc, Nat.add_comm 1 m] using this)
      (by push_cast at hlt; nlinarith)
      (by omega)
    have harith : n + 1 + m + 1 = n + (m + 1) + 1 := by omega
    rw [pollLoop, if_pos he, h0, hrec]
    simp [harith]

/-- C2: with injected responses, `wait_for_completion` returns the
job's descriptor as soon as the job id appears in a response issued
inside the time budget; when the id never appears it raises
`TimeoutError` after exactly `⌈timeout / poll_interval⌉` queries, the
elapsed accumulator having grown by `poll_interval` per query. -/
theorem C2_wait_for_completion {D : Type} (responses : ℕ → Option D) (d : D)
    (p t : ℚ) (m fuel : ℕ) :
    (0 < p → (∀ i, i < m → responses i = none) → responses m = some d →
      (m : ℚ) * p < t → m < fuel →
      waitForCompletion responses p t fuel = (.completed d, m + 1)) ∧
    (0 < p → (∀ n, responses n = none) → (⌈t / p⌉).toNat < fuel →
      waitForCompletion responses p t fuel = (.timedOut, (⌈t / p⌉).toNat)) := by
  constructor
  · intro hp hnone hd hlt hfuel
    have := pollLoop_success responses p t d hp m fuel 0 0
      (fun i hi => by simpa using hnone i hi) (by simpa using hd)
      (by simpa using hlt) hfuel
    simpa [waitForCompletion] using this
  · intro hp hnone hfuel
    have := pollLoop_timeout responses p t hp hnone fuel 0 0
      (by simpa using hfuel)
    simpa [waitForCompletion] using this

/-- Witness for C2: with `poll_interval = 1` and `timeout = 3`, a job
id appearing in the third response (index 2) is returned after 3
queries; a never-appearing id raises `TimeoutError` after
`⌈3/1⌉ = 3` queries. -/
theorem C2_wait_for_completion_witness :
    (0 : ℚ) < 1 ∧ ((2 : ℕ) : ℚ) * 1 < 3 ∧
    waitForCompletion (fun n => if n = 2 then some 99 else none) 1 3 5 =
      (.completed 99, 3) ∧
    (⌈(3 : ℚ) / 1⌉).toNat = 3 ∧
    waitForCompletion (fun _ => (none : Option ℕ)) 1 3 5 =
      (.timedOut, (⌈(3 : ℚ) / 1⌉).toNat) :=
  ⟨by norm_num, by norm_num,
   (C2_wait_for_completion (fun n => if n = 2 then some 99 else none) 99 1 3 2 5).1
     (by norm_num) (fun i hi => by interval_cases i <;> rfl) rfl (by norm_num)
     (by norm_num),
   by norm_num; rfl,
   (C2_wait_for_completion (fun _ => (none : Option ℕ)) 99 1 3 0 5).2
     (by norm_num) (fun n => rfl) (by norm_num)⟩

end CardImageGen
